import Mathlib

/-!
Shallow embedding of the relayer's order/fill lifecycle core
(`src/maker-service/place-order.js`, `src/taker-service/fill-order.js`,
`src/messaging/message-queue.js`) together with theorems checking the
natural-language specification against it.

Conventions of the embedding:
* the payment-channel engine is an oracle record of pure query functions
  (paid / value / balance / pay), mirroring the `engine.*` calls;
* Mongo stores of refund invoices are insertion-ordered lists; `create`
  appends, `findOne` returns the first match;
* a thrown `PublicError` / `Error` becomes `Except.error` with a constructor
  per distinct error message;
* side effects visible outside the call (payments executed, events emitted,
  messenger writes, responses sent) are collected in the outcome record.
-/

namespace Relayer

/-- `OrderStatus` from the proto / `Order.STATUSES` in the models. -/
inductive OrderStatus
  | CREATED
  | PLACED
  | CANCELLED
  | FILLED
  | COMPLETED
  deriving DecidableEq, Repr

/-- The fields of an order record that the two handlers read:
`_id` (Mongo id, here `mongoId`), `orderId`, `payTo`, the amounts and the
status. -/
structure Order where
  mongoId : String
  orderId : String
  payTo : String
  baseAmount : Int
  counterAmount : Int
  status : OrderStatus
  deriving DecidableEq, Repr

/-- An incoming fee/deposit invoice as the handlers use it: only its
payment request is read (paid state and value are queried live from the
engine). -/
structure Invoice where
  paymentRequest : String
  deriving DecidableEq, Repr

/-- An outgoing refund invoice record: foreign id, payment request, and the
preimage recorded once the relayer has paid it. -/
structure RefundInvoice where
  foreignId : String
  paymentRequest : String
  preimage : Option String
  deriving DecidableEq, Repr

/-- Fill statuses per the data model (created → accepted → errored). -/
inductive FillStatus
  | created
  | accepted
  | errored
  deriving DecidableEq, Repr

/-- The fields of a fill record that `fillOrder` reads. -/
structure Fill where
  mongoId : String
  fillId : String
  takerPayTo : String
  fillAmount : Int
  status : FillStatus
  deriving DecidableEq, Repr

/-- The payment-channel engine as an oracle of pure functions, one per
`engine.*` call the handlers make. `isBalanceSufficient addr amount outbound`
mirrors `engine.isBalanceSufficient(addr, amount, {outbound})`; `payInvoice`
returns the preimage for a payment request. -/
structure Engine where
  isInvoicePaid : String → Bool
  getInvoiceValue : String → Int
  isBalanceSufficient : String → Int → Bool → Bool
  payInvoice : String → String

/-- Modelled from the spec: `order.place()` lives in the Order model, which
is not under src; the spec says PlaceOrder "transition[s] CREATED→PLACED". -/
def Order.place (o : Order) : Order :=
  { o with status := OrderStatus.PLACED }

/-- Modelled from the spec: `order.fill()` lives in the Order model, which is
not under src; the spec says FillOrder "mark[s] ... the order claimed (no
further fills may be accepted against this order)". -/
def Order.fill (o : Order) : Order :=
  { o with status := OrderStatus.FILLED }

/-- Modelled from the spec: `fill.accept()` lives in the Fill model, which is
not under src; the spec says FillOrder "mark[s] the fill accepted". -/
def Fill.accept (f : Fill) : Fill :=
  { f with status := FillStatus.accepted }

/-- Modelled from the spec: `refundInvoice.markAsPaid(preimage)` lives in the
Invoice model, which is not under src; the spec says paying a refund marks
"each refund invoice with its payment preimage". -/
def RefundInvoice.markAsPaid (inv : RefundInvoice) (pre : String) : RefundInvoice :=
  { inv with preimage := some pre }

/-- `Model.findOne({foreignId})` over an insertion-ordered store: the first
record with the given foreign id. -/
def findOne (l : List RefundInvoice) (fid : String) : Option RefundInvoice :=
  l.find? (fun inv => inv.foreignId == fid)

/-- `doc.save()` after mutating the document `findOne` returned: update the
first record with the given foreign id in place. -/
def setPreimageOnFirst (l : List RefundInvoice) (fid pre : String) : List RefundInvoice :=
  match l with
  | [] => []
  | inv :: rest =>
    if inv.foreignId == fid then { inv with preimage := some pre } :: rest
    else inv :: setPreimageOnFirst rest fid pre

/-! ## PlaceOrder (`src/maker-service/place-order.js`) -/

/-- The distinct `FRIENDLY_ERRORS` a `placeOrder` call can throw. -/
inductive PlaceErr
  | NOT_PLACED
  | FEE_NOT_PAID
  | DEPOSIT_NOT_PAID
  | INSUFFICIENT_FUNDS_OUTBOUND
  | INSUFFICIENT_FUNDS_INBOUND
  | FEE_VALUES_UNEQUAL
  | DEPOSIT_VALUES_UNEQUAL
  deriving DecidableEq, Repr

/-- The persistent records a `placeOrder` call touches: the order it found,
the results of the two incoming-invoice `findOne`s, and the refund-invoice
stores. -/
structure PlaceState where
  order : Order
  feeInvoice : Option Invoice
  depositInvoice : Option Invoice
  feeRefundInvoices : List RefundInvoice
  depositRefundInvoices : List RefundInvoice
  deriving DecidableEq, Repr

/-- One message sent back on the `PlaceOrder` response stream, with the
fields the proto's `PlaceOrderResponse` declares (`order_status`, `fill`).
The implementation's `EmptyResponse` carries neither field. -/
structure PlaceMsg where
  orderStatus : Option OrderStatus
  fillId : Option String
  deriving DecidableEq, Repr

/-- Everything observable about one `placeOrder` call: the call result, the
post-state of the records, the payment requests paid via `engine.payInvoice`
in order, the order ids emitted on the `order:placed` event bus, the
`logger.error` lines, and the response messages sent to the caller. -/
structure PlaceOutcome where
  result : Except PlaceErr Unit
  state : PlaceState
  payments : List String
  placedEvents : List String
  errorLogs : List String
  responses : List PlaceMsg
  deriving Repr

/-- Abort helper: a thrown `PublicError` leaves every record untouched and
sends no response message. -/
def placeAbort (st : PlaceState) (e : PlaceErr) (log : String) : PlaceOutcome :=
  { result := .error e, state := st, payments := [], placedEvents := [],
    errorLogs := [log], responses := [] }

/-- The CANCELLED branch of `placeOrder` (lines 112-134 of
src/maker-service/place-order.js), factored out verbatim: `findOne` each
refund invoice for the order, pay each one that has no preimage yet (fee
first, then deposit), record its preimage via `save()`, and return `{}`
without touching the order's status. `st1` is the state after the two
refund invoices were persisted. -/
def placeCancelledRefund (st1 : PlaceState) (engine : Engine) (order : Order) : PlaceOutcome :=
  match findOne st1.feeRefundInvoices order.mongoId,
      findOne st1.depositRefundInvoices order.mongoId with
  | some feeRefundInvoice, some depositRefundInvoice =>
    let st2p :=
      if feeRefundInvoice.preimage = none then
        let feePre := engine.payInvoice feeRefundInvoice.paymentRequest
        ({ st1 with feeRefundInvoices :=
            setPreimageOnFirst st1.feeRefundInvoices order.mongoId feePre },
         [feeRefundInvoice.paymentRequest])
      else (st1, ([] : List String))
    let st3p :=
      if depositRefundInvoice.preimage = none then
        let depPre := engine.payInvoice depositRefundInvoice.paymentRequest
        ({ st2p.1 with depositRefundInvoices :=
            setPreimageOnFirst st2p.1.depositRefundInvoices order.mongoId depPre },
         st2p.2 ++ [depositRefundInvoice.paymentRequest])
      else (st2p.1, st2p.2)
    { result := .ok (), state := st3p.1, payments := st3p.2, placedEvents := [],
      errorLogs := [], responses := [⟨none, none⟩] }
  | _, _ =>
    -- dead branch: the creates preceding this call guarantee both findOnes succeed
    { result := .error .NOT_PLACED, state := st1, payments := [], placedEvents := [],
      errorLogs := [], responses := [] }

/-- Shallow embedding of `placeOrder` (src/maker-service/place-order.js),
step for step: missing-invoice check, fee/deposit paid checks,
outbound/inbound balance checks at the maker's address, fee and deposit
refund-value equality checks, persistence of the two refund invoices, the
CANCELLED refund branch, and finally `order.place()` plus the
`order:placed` event and an `EmptyResponse`. -/
def placeOrder (st : PlaceState) (engine : Engine)
    (feeRefundPaymentRequest depositRefundPaymentRequest : String) : PlaceOutcome :=
  let order := st.order
  match st.feeInvoice, st.depositInvoice with
  | some feeInvoice, some depositInvoice =>
    if !(engine.isInvoicePaid feeInvoice.paymentRequest) then
      placeAbort st .FEE_NOT_PAID "Fee not paid for order"
    else if !(engine.isInvoicePaid depositInvoice.paymentRequest) then
      placeAbort st .DEPOSIT_NOT_PAID "Deposit not paid for order"
    else if !(engine.isBalanceSufficient (order.payTo.drop 3) order.counterAmount true) then
      placeAbort st .INSUFFICIENT_FUNDS_OUTBOUND "Insufficient funds in outbound channel for order"
    else if !(engine.isBalanceSufficient (order.payTo.drop 3) order.baseAmount false) then
      placeAbort st .INSUFFICIENT_FUNDS_INBOUND "Insufficient funds in inbound channel for order"
    else if engine.getInvoiceValue feeInvoice.paymentRequest ≠
        engine.getInvoiceValue feeRefundPaymentRequest then
      placeAbort st .FEE_VALUES_UNEQUAL "Fee invoice refund amount does not equal fee invoice amount"
    else if engine.getInvoiceValue depositInvoice.paymentRequest ≠
        engine.getInvoiceValue depositRefundPaymentRequest then
      placeAbort st .DEPOSIT_VALUES_UNEQUAL
        "Deposit invoice refund amount does not equal deposit invoice amount"
    else
      let st1 : PlaceState := { st with
        feeRefundInvoices :=
          st.feeRefundInvoices ++ [⟨order.mongoId, feeRefundPaymentRequest, none⟩],
        depositRefundInvoices :=
          st.depositRefundInvoices ++ [⟨order.mongoId, depositRefundPaymentRequest, none⟩] }
      if order.status = OrderStatus.CANCELLED then
        placeCancelledRefund st1 engine order
      else
        { result := .ok (),
          state := { st1 with order := order.place },
          payments := [], placedEvents := [order.orderId], errorLogs := [],
          responses := [⟨none, none⟩] }
  | _, _ =>
    placeAbort st .NOT_PLACED "Fee invoice could not be found for order"

/-! ## FillOrder (`src/taker-service/fill-order.js`) -/

/-- The distinct errors a `fillOrder` call can throw: the plain `Error`s for
missing records and unpaid invoices, and the `PublicError`s from
`FRIENDLY_ERRORS`. -/
inductive FillErr
  | noFill
  | noOrder
  | noFeeInvoice
  | noDepositInvoice
  | feeNotPaid
  | depositNotPaid
  | FEE_VALUES_UNEQUAL
  | DEPOSIT_VALUES_UNEQUAL
  | INSUFFICIENT_FUNDS_OUTBOUND
  | INSUFFICIENT_FUNDS_INBOUND
  | ORDER_NOT_PLACED
  deriving DecidableEq, Repr

/-- The persistent records a `fillOrder` call touches: results of the
`Fill.findOne` / `Order.findOne` / `invoicesForFill` lookups and the
refund-invoice stores for the fill. -/
structure FillState where
  fill : Option Fill
  order : Option Order
  feeInvoice : Option Invoice
  depositInvoice : Option Invoice
  feeRefundInvoices : List RefundInvoice
  depositRefundInvoices : List RefundInvoice
  deriving DecidableEq, Repr

/-- Everything observable about one `fillOrder` call: the result, the
post-state of the fill and order records and the refund-invoice stores, the
payment requests paid via `engine.payInvoice` in order, and the
`messenger.set` key/value writes. -/
structure FillOutcome where
  result : Except FillErr Unit
  fill : Option Fill
  order : Option Order
  feeRefundInvoices : List RefundInvoice
  depositRefundInvoices : List RefundInvoice
  payments : List String
  messengerSets : List (String × String)
  deriving Repr

/-- Abort helper: a throw before any persistence leaves every record
untouched. -/
def fillAbort (st : FillState) (e : FillErr) : FillOutcome :=
  { result := .error e, fill := st.fill, order := st.order,
    feeRefundInvoices := st.feeRefundInvoices,
    depositRefundInvoices := st.depositRefundInvoices,
    payments := [], messengerSets := [] }

/-- Shallow embedding of the `checkChannelBalances` helper
(src/taker-service/fill-order.js): four balance queries — maker outbound
against the order's counter amount, maker inbound against the order's base
amount, then the same two for the taker's address — checked in that order. -/
def checkChannelBalances (order : Order) (fill : Fill) (engine : Engine) :
    Except FillErr Unit :=
  let mOut := engine.isBalanceSufficient (order.payTo.drop 3) order.counterAmount true
  let mIn := engine.isBalanceSufficient (order.payTo.drop 3) order.baseAmount false
  let tOut := engine.isBalanceSufficient (fill.takerPayTo.drop 3) order.counterAmount true
  let tIn := engine.isBalanceSufficient (fill.takerPayTo.drop 3) order.baseAmount false
  if !mOut then .error .INSUFFICIENT_FUNDS_OUTBOUND
  else if !mIn then .error .INSUFFICIENT_FUNDS_INBOUND
  else if !tOut then .error .INSUFFICIENT_FUNDS_OUTBOUND
  else if !tIn then .error .INSUFFICIENT_FUNDS_INBOUND
  else .ok ()

/-- Shallow embedding of `fillOrder` (src/taker-service/fill-order.js), step
for step: fill and order lookups, `invoicesForFill` (fee then deposit
existence), fee/deposit paid checks, fee then deposit refund-value equality
checks, `createRefundInvoices` (persists both refund invoices),
`checkChannelBalances`, then the not-PLACED branch (pay both refunds, mark
each as paid, throw `ORDER_NOT_PLACED`) or the success branch
(`fill.accept()`, `order.fill()`, `messenger.set`). -/
def fillOrder (st : FillState) (engine : Engine)
    (feeRefundPaymentRequest depositRefundPaymentRequest : String) : FillOutcome :=
  match st.fill with
  | none => fillAbort st .noFill
  | some fill =>
    match st.order with
    | none => fillAbort st .noOrder
    | some order =>
      match st.feeInvoice with
      | none => fillAbort st .noFeeInvoice
      | some feeInvoice =>
        match st.depositInvoice with
        | none => fillAbort st .noDepositInvoice
        | some depositInvoice =>
          if !(engine.isInvoicePaid feeInvoice.paymentRequest) then
            fillAbort st .feeNotPaid
          else if !(engine.isInvoicePaid depositInvoice.paymentRequest) then
            fillAbort st .depositNotPaid
          else if engine.getInvoiceValue feeInvoice.paymentRequest ≠
              engine.getInvoiceValue feeRefundPaymentRequest then
            fillAbort st .FEE_VALUES_UNEQUAL
          else if engine.getInvoiceValue depositInvoice.paymentRequest ≠
              engine.getInvoiceValue depositRefundPaymentRequest then
            fillAbort st .DEPOSIT_VALUES_UNEQUAL
          else
            let feeRefundInvoice : RefundInvoice :=
              ⟨fill.mongoId, feeRefundPaymentRequest, none⟩
            let depositRefundInvoice : RefundInvoice :=
              ⟨fill.mongoId, depositRefundPaymentRequest, none⟩
            let feeStore := st.feeRefundInvoices ++ [feeRefundInvoice]
            let depStore := st.depositRefundInvoices ++ [depositRefundInvoice]
            match checkChannelBalances order fill engine with
            | .error e =>
              { result := .error e, fill := some fill, order := some order,
                feeRefundInvoices := feeStore, depositRefundInvoices := depStore,
                payments := [], messengerSets := [] }
            | .ok _ =>
              if order.status ≠ OrderStatus.PLACED then
                let feePreimage := engine.payInvoice feeRefundPaymentRequest
                let depositPreimage := engine.payInvoice depositRefundPaymentRequest
                { result := .error .ORDER_NOT_PLACED, fill := some fill, order := some order,
                  feeRefundInvoices :=
                    st.feeRefundInvoices ++ [feeRefundInvoice.markAsPaid feePreimage],
                  depositRefundInvoices :=
                    st.depositRefundInvoices ++ [depositRefundInvoice.markAsPaid depositPreimage],
                  payments := [feeRefundPaymentRequest, depositRefundPaymentRequest],
                  messengerSets := [] }
              else
                { result := .ok (), fill := some fill.accept, order := some order.fill,
                  feeRefundInvoices := feeStore, depositRefundInvoices := depStore,
                  payments := [],
                  messengerSets := [("fill:" ++ order.mongoId, fill.fillId)] }

/-! ## MessageQueue (`src/messaging/message-queue.js`)

The notification channel is keyed per order id; each key maps to one
`MessageQueue` instance. `deliver` is `enqueue`, `awaitOnce` is `next`. -/

/-- State of one `MessageQueue`: the pending items (`this._queue`) and the
number of `next()` callers currently suspended (`this._listeners`, which
holds their resolvers; only their count and the values handed to them are
observable here). -/
structure MessageQueue (α : Type) where
  queue : List α
  listeners : Nat
  deriving DecidableEq, Repr

/-- `enqueue(item)`: push the item, then the constructor's `enqueue` handler
runs: if any listeners are suspended, `dequeue()` (shift) one item and hand
that same item to every suspended listener. Returns the new state and the
values delivered to previously-suspended listeners. -/
def MessageQueue.enqueue (q : MessageQueue α) (item : α) :
    MessageQueue α × List (Option α) :=
  let q1 : MessageQueue α := { q with queue := q.queue ++ [item] }
  if q1.listeners ≠ 0 then
    ({ queue := q1.queue.tail, listeners := 0 },
     List.replicate q1.listeners q1.queue.head?)
  else (q1, [])

/-- `next()`: if the queue is non-empty, resolve immediately with
`dequeue()` (shift); otherwise suspend (push the resolver onto
`this._listeners`), modelled as returning `none`. -/
def MessageQueue.next (q : MessageQueue α) : Option α × MessageQueue α :=
  match q.queue with
  | item :: rest => (some item, { q with queue := rest })
  | [] => (none, { q with listeners := q.listeners + 1 })

/-! ## Two FillOrder calls racing on one order

Projection of `fillOrder` onto its accesses to the shared order record, for
two concurrent calls against the same order. Each call:
* `Order.findOne` (line 39) reads the current status into an in-memory
  snapshot;
* then performs its engine round trips (paid / value / balance queries and
  refund-invoice persistence), which read and write no shared order state —
  here both calls are taken to pass all of those checks;
* then the status test (line 80) consults the *snapshot*, and on PLACED the
  call runs `fill.accept()` / `order.fill()`, writing FILLED to the shared
  status; on a non-PLACED snapshot it pays its own refunds and throws
  `ORDER_NOT_PLACED`.
The check and the write are modelled as a single atomic step, which gives
the source more atomicity than it has (they are separate awaits); the race
below exists even so, because the test reads the stale snapshot. -/

/-- Where one racing FillOrder call stands. -/
inductive TakerPhase
  | start
  | loaded (snapshot : OrderStatus)
  | succeeded
  | refunded
  deriving DecidableEq, Repr

/-- Shared order status plus the two calls' phases. -/
structure RaceState where
  orderStatus : OrderStatus
  taker1 : TakerPhase
  taker2 : TakerPhase
  deriving DecidableEq, Repr

/-- One atomic step of a single call against the shared status. -/
def stepTaker (shared : OrderStatus) : TakerPhase → OrderStatus × TakerPhase
  | .start => (shared, .loaded shared)
  | .loaded snapshot =>
    if snapshot = OrderStatus.PLACED then (OrderStatus.FILLED, .succeeded)
    else (shared, .refunded)
  | p => (shared, p)

/-- Run one step of call 1 (`true`) or call 2 (`false`). -/
def raceStep (who : Bool) (s : RaceState) : RaceState :=
  if who then
    let r := stepTaker s.orderStatus s.taker1
    { s with orderStatus := r.1, taker1 := r.2 }
  else
    let r := stepTaker s.orderStatus s.taker2
    { s with orderStatus := r.1, taker2 := r.2 }

/-- Run a schedule (interleaving) of the two calls. -/
def runRace (sched : List Bool) (s : RaceState) : RaceState :=
  sched.foldl (fun s w => raceStep w s) s

/-! ## Concrete fixtures used by witnesses and counterexamples -/

/-- An engine for which every check passes: all invoices paid, all invoice
values 100, all channel balances sufficient; paying a request yields a
preimage derived from it. -/
def allOkEngine : Engine :=
  { isInvoicePaid := fun _ => true
    getInvoiceValue := fun _ => 100
    isBalanceSufficient := fun _ _ _ => true
    payInvoice := fun pr => "pre-" ++ pr }

/-- `allOkEngine`, except no invoice is paid. -/
def unpaidEngine : Engine :=
  { allOkEngine with isInvoicePaid := fun _ => false }

/-- `allOkEngine`, except outbound channel balances are insufficient. -/
def outboundShortEngine : Engine :=
  { allOkEngine with isBalanceSufficient := fun _ _ outbound => !outbound }

/-- `allOkEngine`, except the refund request "frf" has value 7 (a fee
refund-value mismatch) and every channel balance is insufficient: a state in
which the fee-value precondition and the balance precondition fail at once. -/
def bothShortEngine : Engine :=
  { allOkEngine with
    getInvoiceValue := fun pr => if pr == "frf" then 7 else 100
    isBalanceSufficient := fun _ _ _ => false }

/-- A created order. -/
def sampleOrder : Order :=
  { mongoId := "oid1", orderId := "o1", payTo := "ln:maker", baseAmount := 100000,
    counterAmount := 500000, status := OrderStatus.CREATED }

/-- A place-call state for `sampleOrder` with both incoming invoices found
and no refund invoices persisted yet. -/
def samplePlaceState : PlaceState :=
  { order := sampleOrder, feeInvoice := some ⟨"feeReq"⟩,
    depositInvoice := some ⟨"depReq"⟩,
    feeRefundInvoices := [], depositRefundInvoices := [] }

/-- `samplePlaceState` with the order cancelled. -/
def cancelledPlaceState : PlaceState :=
  { samplePlaceState with order := { sampleOrder with status := OrderStatus.CANCELLED } }

/-- A repeat place call on the cancelled order: an earlier call already
persisted and paid a fee refund invoice for it. -/
def repeatCancelledPlaceState : PlaceState :=
  { cancelledPlaceState with feeRefundInvoices := [⟨"oid1", "oldF", some "p0"⟩] }

/-- `samplePlaceState` with the fee invoice record missing. -/
def missingInvoicePlaceState : PlaceState :=
  { samplePlaceState with feeInvoice := none }

/-- A fill against `sampleOrder`. -/
def sampleFill : Fill :=
  { mongoId := "fid1", fillId := "f1", takerPayTo := "ln:taker", fillAmount := 100000,
    status := FillStatus.created }

/-- A fill-call state with the parent order PLACED and both incoming
invoices found. -/
def placedFillState : FillState :=
  { fill := some sampleFill,
    order := some { sampleOrder with status := OrderStatus.PLACED },
    feeInvoice := some ⟨"ffeeReq"⟩, depositInvoice := some ⟨"fdepReq"⟩,
    feeRefundInvoices := [], depositRefundInvoices := [] }

/-- `placedFillState` after the order was cancelled in the interim. -/
def cancelledFillState : FillState :=
  { placedFillState with
    order := some { sampleOrder with status := OrderStatus.CANCELLED } }

/-- The empty per-key notification queue. -/
def emptyQueue : MessageQueue String := { queue := [], listeners := 0 }

/-- Both racing FillOrder calls at their start, order PLACED. -/
def raceStart : RaceState :=
  { orderStatus := OrderStatus.PLACED, taker1 := .start, taker2 := .start }

/-! ## Helper lemmas -/

instance {ε α : Type} [DecidableEq ε] [DecidableEq α] : DecidableEq (Except ε α) :=
  fun a b =>
    match a, b with
    | .ok x, .ok y =>
      if h : x = y then isTrue (congrArg Except.ok h)
      else isFalse fun hh => h (by cases hh; rfl)
    | .error x, .error y =>
      if h : x = y then isTrue (congrArg Except.error h)
      else isFalse fun hh => h (by cases hh; rfl)
    | .ok _, .error _ => isFalse fun hh => Except.noConfusion hh
    | .error _, .ok _ => isFalse fun hh => Except.noConfusion hh

/-- The four payment conditions gating `placeOrder` per the spec: both
incoming invoices found and reported paid, and each refund request's value
equal to its incoming invoice's value. -/
def placePaymentCondsB (st : PlaceState) (e : Engine) (f d : String) : Bool :=
  (match st.feeInvoice with
   | some fi =>
     e.isInvoicePaid fi.paymentRequest &&
       (e.getInvoiceValue fi.paymentRequest == e.getInvoiceValue f)
   | none => false) &&
  (match st.depositInvoice with
   | some di =>
     e.isInvoicePaid di.paymentRequest &&
       (e.getInvoiceValue di.paymentRequest == e.getInvoiceValue d)
   | none => false)

/-- The analogous conditions for a `fillOrder` call: fill and order records
found, both incoming invoices found and paid, and both refund values equal
to their invoice values. -/
def fillPaymentCondsB (st : FillState) (e : Engine) (f d : String) : Bool :=
  st.fill.isSome && st.order.isSome &&
  (match st.feeInvoice with
   | some fi =>
     e.isInvoicePaid fi.paymentRequest &&
       (e.getInvoiceValue fi.paymentRequest == e.getInvoiceValue f)
   | none => false) &&
  (match st.depositInvoice with
   | some di =>
     e.isInvoicePaid di.paymentRequest &&
       (e.getInvoiceValue di.paymentRequest == e.getInvoiceValue d)
   | none => false)

lemma findOne_append_fresh (l : List RefundInvoice) (inv : RefundInvoice) (fid : String)
    (h : ∀ i ∈ l, i.foreignId ≠ fid) (hinv : inv.foreignId = fid) :
    findOne (l ++ [inv]) fid = some inv := by
  induction l with
  | nil => simp [findOne, List.find?, hinv]
  | cons a rest ih =>
    have ha : (a.foreignId == fid) = false :=
      beq_eq_false_iff_ne.mpr (h a (by simp))
    have hrest : ∀ i ∈ rest, i.foreignId ≠ fid := fun i hi => h i (by simp [hi])
    simp only [List.cons_append, findOne, List.find?]
    rw [ha]
    exact ih hrest

lemma setPreimageOnFirst_append_fresh (l : List RefundInvoice) (fid pr p : String)
    (h : ∀ i ∈ l, i.foreignId ≠ fid) :
    setPreimageOnFirst (l ++ [⟨fid, pr, none⟩]) fid p = l ++ [⟨fid, pr, some p⟩] := by
  induction l with
  | nil => simp [setPreimageOnFirst]
  | cons a rest ih =>
    have ha : a.foreignId ≠ fid := h a (by simp)
    have hrest : ∀ i ∈ rest, i.foreignId ≠ fid := fun i hi => h i (by simp [hi])
    simp [setPreimageOnFirst, ha, ih hrest]

lemma checkChannelBalances_ok_iff (o : Order) (fl : Fill) (e : Engine) :
    checkChannelBalances o fl e = .ok () ↔
      e.isBalanceSufficient (o.payTo.drop 3) o.counterAmount true = true ∧
      e.isBalanceSufficient (o.payTo.drop 3) o.baseAmount false = true ∧
      e.isBalanceSufficient (fl.takerPayTo.drop 3) o.counterAmount true = true ∧
      e.isBalanceSufficient (fl.takerPayTo.drop 3) o.baseAmount false = true := by
  unfold checkChannelBalances
  cases h1 : e.isBalanceSufficient (o.payTo.drop 3) o.counterAmount true <;>
    cases h2 : e.isBalanceSufficient (o.payTo.drop 3) o.baseAmount false <;>
      cases h3 : e.isBalanceSufficient (fl.takerPayTo.drop 3) o.counterAmount true <;>
        cases h4 : e.isBalanceSufficient (fl.takerPayTo.drop 3) o.baseAmount false <;>
          simp

lemma checkChannelBalances_error_cases (o : Order) (fl : Fill) (e : Engine)
    (er : FillErr) (h : checkChannelBalances o fl e = .error er) :
    er = .INSUFFICIENT_FUNDS_OUTBOUND ∨ er = .INSUFFICIENT_FUNDS_INBOUND := by
  unfold checkChannelBalances at h
  cases h1 : e.isBalanceSufficient (o.payTo.drop 3) o.counterAmount true <;>
    cases h2 : e.isBalanceSufficient (o.payTo.drop 3) o.baseAmount false <;>
      cases h3 : e.isBalanceSufficient (fl.takerPayTo.drop 3) o.counterAmount true <;>
        cases h4 : e.isBalanceSufficient (fl.takerPayTo.drop 3) o.baseAmount false <;>
          simp_all

lemma placeCancelledRefund_placedEvents (stp : PlaceState) (e : Engine) (o : Order) :
    (placeCancelledRefund stp e o).placedEvents = [] := by
  unfold placeCancelledRefund
  split <;> rfl

lemma placeCancelledRefund_order (stp : PlaceState) (e : Engine) (o : Order) :
    (placeCancelledRefund stp e o).state.order = stp.order := by
  unfold placeCancelledRefund
  split
  · dsimp only
    split_ifs <;> rfl
  · rfl

/-- In the live branch of the CANCELLED refund (both refund invoices found,
neither paid yet), the call pays both, records both preimages and returns
`{}`. -/
lemma placeCancelledRefund_fresh (stp : PlaceState) (e : Engine) (o : Order)
    (f d : String)
    (hfee : findOne stp.feeRefundInvoices o.mongoId = some ⟨o.mongoId, f, none⟩)
    (hdep : findOne stp.depositRefundInvoices o.mongoId = some ⟨o.mongoId, d, none⟩) :
    (placeCancelledRefund stp e o).result = .ok () ∧
    (placeCancelledRefund stp e o).payments = [f, d] ∧
    (placeCancelledRefund stp e o).state.feeRefundInvoices =
      setPreimageOnFirst stp.feeRefundInvoices o.mongoId (e.payInvoice f) ∧
    (placeCancelledRefund stp e o).state.depositRefundInvoices =
      setPreimageOnFirst stp.depositRefundInvoices o.mongoId (e.payInvoice d) := by
  unfold placeCancelledRefund
  rw [hfee, hdep]
  simp

/-- Full characterization of the live branch of the CANCELLED refund for
whatever refund invoices `findOne` returns: each found invoice without a
preimage is paid (fee first, then deposit) and gets its preimage recorded
on the first matching store record; a found invoice already carrying a
preimage is skipped. The call returns `{}` either way. -/
lemma placeCancelledRefund_found (stp : PlaceState) (e : Engine) (o : Order)
    (feeFound depFound : RefundInvoice)
    (hfee : findOne stp.feeRefundInvoices o.mongoId = some feeFound)
    (hdep : findOne stp.depositRefundInvoices o.mongoId = some depFound) :
    (placeCancelledRefund stp e o).result = .ok () ∧
    (placeCancelledRefund stp e o).payments =
      (if feeFound.preimage = none then [feeFound.paymentRequest] else []) ++
      (if depFound.preimage = none then [depFound.paymentRequest] else []) ∧
    (placeCancelledRefund stp e o).state.feeRefundInvoices =
      (if feeFound.preimage = none then
        setPreimageOnFirst stp.feeRefundInvoices o.mongoId
          (e.payInvoice feeFound.paymentRequest)
      else stp.feeRefundInvoices) ∧
    (placeCancelledRefund stp e o).state.depositRefundInvoices =
      (if depFound.preimage = none then
        setPreimageOnFirst stp.depositRefundInvoices o.mongoId
          (e.payInvoice depFound.paymentRequest)
      else stp.depositRefundInvoices) := by
  unfold placeCancelledRefund
  rw [hfee, hdep]
  by_cases h1 : feeFound.preimage = none <;>
    by_cases h2 : depFound.preimage = none <;>
      simp [h1, h2]

lemma findOne_append_self_isSome (l : List RefundInvoice) (pr : String)
    (pre : Option String) (fid : String) :
    (findOne (l ++ [⟨fid, pr, pre⟩]) fid).isSome = true := by
  induction l with
  | nil => simp [findOne, List.find?]
  | cons a rest ih =>
    cases ha : (a.foreignId == fid) with
    | true => simp [findOne, List.find?, ha]
    | false =>
      simp only [List.cons_append, findOne, List.find?]
      rw [ha]
      exact ih

lemma placeCancelledRefund_ok (stp : PlaceState) (e : Engine) (o : Order)
    (h1 : (findOne stp.feeRefundInvoices o.mongoId).isSome = true)
    (h2 : (findOne stp.depositRefundInvoices o.mongoId).isSome = true) :
    (placeCancelledRefund stp e o).result = .ok () := by
  obtain ⟨a, ha⟩ := Option.isSome_iff_exists.mp h1
  obtain ⟨b, hb⟩ := Option.isSome_iff_exists.mp h2
  unfold placeCancelledRefund
  rw [ha, hb]

/-- Every error a `placeOrder` call returns is raised before any
persistence or payment: the state is exactly the input state and no payment
was executed. -/
lemma placeOrder_error_frame (st : PlaceState) (e : Engine) (f d : String)
    (er : PlaceErr) (h : (placeOrder st e f d).result = .error er) :
    (placeOrder st e f d).state = st ∧ (placeOrder st e f d).payments = [] := by
  obtain ⟨o, fi, di, fr, dr⟩ := st
  cases fi with
  | none => exact ⟨rfl, rfl⟩
  | some fi =>
  cases di with
  | none => exact ⟨rfl, rfl⟩
  | some di =>
  cases hp1 : e.isInvoicePaid fi.paymentRequest with
  | false => refine ⟨?_, ?_⟩ <;> simp [placeOrder, placeAbort, hp1]
  | true =>
  cases hp2 : e.isInvoicePaid di.paymentRequest with
  | false => refine ⟨?_, ?_⟩ <;> simp [placeOrder, placeAbort, hp1, hp2]
  | true =>
  cases hb1 : e.isBalanceSufficient (o.payTo.drop 3) o.counterAmount true with
  | false => refine ⟨?_, ?_⟩ <;> simp [placeOrder, placeAbort, hp1, hp2, hb1]
  | true =>
  cases hb2 : e.isBalanceSufficient (o.payTo.drop 3) o.baseAmount false with
  | false => refine ⟨?_, ?_⟩ <;> simp [placeOrder, placeAbort, hp1, hp2, hb1, hb2]
  | true =>
  by_cases hv1 : e.getInvoiceValue fi.paymentRequest = e.getInvoiceValue f
  case neg => refine ⟨?_, ?_⟩ <;> simp [placeOrder, placeAbort, hp1, hp2, hb1, hb2, hv1]
  case pos =>
  by_cases hv2 : e.getInvoiceValue di.paymentRequest = e.getInvoiceValue d
  case neg => refine ⟨?_, ?_⟩ <;> simp [placeOrder, placeAbort, hp1, hp2, hb1, hb2, hv1, hv2]
  case pos =>
  exfalso
  by_cases hc : o.status = OrderStatus.CANCELLED
  case pos =>
    have hred :
        placeOrder ⟨o, some fi, some di, fr, dr⟩ e f d =
          placeCancelledRefund
            { order := o, feeInvoice := some fi, depositInvoice := some di,
              feeRefundInvoices := fr ++ [⟨o.mongoId, f, none⟩],
              depositRefundInvoices := dr ++ [⟨o.mongoId, d, none⟩] } e o := by
      simp [placeOrder, hp1, hp2, hb1, hb2, hv1, hv2, hc]
    rw [hred, placeCancelledRefund_ok] at h
    · exact Except.noConfusion h
    · exact findOne_append_self_isSome fr f none o.mongoId
    · exact findOne_append_self_isSome dr d none o.mongoId
  case neg =>
    have hok : (placeOrder ⟨o, some fi, some di, fr, dr⟩ e f d).result = .ok () := by
      simp [placeOrder, hp1, hp2, hb1, hb2, hv1, hv2, hc]
    rw [hok] at h
    exact Except.noConfusion h

/-- Case analysis of a `fillOrder` call: either it aborts before any
persistence, or (all four payment conditions having passed) the two refund
invoices are persisted and the call ends in the balance-failure branch, the
ORDER_NOT_PLACED refund branch, or the success branch. -/
lemma fillOrder_cases (st : FillState) (e : Engine) (f d : String) :
    (fillPaymentCondsB st e f d = false ∧ ∃ er, fillOrder st e f d = fillAbort st er) ∨
    (∃ fl o, st.fill = some fl ∧ st.order = some o ∧
      fillPaymentCondsB st e f d = true ∧
      ((∃ er, checkChannelBalances o fl e = .error er ∧
         fillOrder st e f d =
           { result := .error er, fill := some fl, order := some o,
             feeRefundInvoices := st.feeRefundInvoices ++ [⟨fl.mongoId, f, none⟩],
             depositRefundInvoices := st.depositRefundInvoices ++ [⟨fl.mongoId, d, none⟩],
             payments := [], messengerSets := [] }) ∨
       (checkChannelBalances o fl e = .ok () ∧ o.status ≠ OrderStatus.PLACED ∧
         fillOrder st e f d =
           { result := .error .ORDER_NOT_PLACED, fill := some fl, order := some o,
             feeRefundInvoices :=
               st.feeRefundInvoices ++ [⟨fl.mongoId, f, some (e.payInvoice f)⟩],
             depositRefundInvoices :=
               st.depositRefundInvoices ++ [⟨fl.mongoId, d, some (e.payInvoice d)⟩],
             payments := [f, d], messengerSets := [] }) ∨
       (checkChannelBalances o fl e = .ok () ∧ o.status = OrderStatus.PLACED ∧
         fillOrder st e f d =
           { result := .ok (), fill := some fl.accept, order := some o.fill,
             feeRefundInvoices := st.feeRefundInvoices ++ [⟨fl.mongoId, f, none⟩],
             depositRefundInvoices := st.depositRefundInvoices ++ [⟨fl.mongoId, d, none⟩],
             payments := [],
             messengerSets := [("fill:" ++ o.mongoId, fl.fillId)] }))) := by
  obtain ⟨flo, oo, fio, dio, frs, drs⟩ := st
  cases flo with
  | none => exact Or.inl ⟨rfl, .noFill, rfl⟩
  | some fl =>
  cases oo with
  | none => exact Or.inl ⟨rfl, .noOrder, rfl⟩
  | some o =>
  cases fio with
  | none => exact Or.inl ⟨by simp [fillPaymentCondsB], .noFeeInvoice, rfl⟩
  | some fi =>
  cases dio with
  | none => exact Or.inl ⟨by simp [fillPaymentCondsB], .noDepositInvoice, rfl⟩
  | some di =>
  cases hp1 : e.isInvoicePaid fi.paymentRequest with
  | false =>
    exact Or.inl ⟨by simp [fillPaymentCondsB, hp1], .feeNotPaid,
      by simp [fillOrder, fillAbort, hp1]⟩
  | true =>
  cases hp2 : e.isInvoicePaid di.paymentRequest with
  | false =>
    exact Or.inl ⟨by simp [fillPaymentCondsB, hp1, hp2], .depositNotPaid,
      by simp [fillOrder, fillAbort, hp1, hp2]⟩
  | true =>
  by_cases hv1 : e.getInvoiceValue fi.paymentRequest = e.getInvoiceValue f
  case neg =>
    exact Or.inl ⟨by simp [fillPaymentCondsB, hp1, hp2, hv1], .FEE_VALUES_UNEQUAL,
      by simp [fillOrder, fillAbort, hp1, hp2, hv1]⟩
  case pos =>
  by_cases hv2 : e.getInvoiceValue di.paymentRequest = e.getInvoiceValue d
  case neg =>
    exact Or.inl ⟨by simp [fillPaymentCondsB, hp1, hp2, hv1, hv2], .DEPOSIT_VALUES_UNEQUAL,
      by simp [fillOrder, fillAbort, hp1, hp2, hv1, hv2]⟩
  case pos =>
  refine Or.inr ⟨fl, o, rfl, rfl, by simp [fillPaymentCondsB, hp1, hp2, hv1, hv2], ?_⟩
  cases hbal : checkChannelBalances o fl e with
  | error er =>
    exact Or.inl ⟨er, rfl, by simp [fillOrder, hp1, hp2, hv1, hv2, hbal]⟩
  | ok u =>
    cases u
    by_cases hs : o.status = OrderStatus.PLACED
    case pos =>
      exact Or.inr (Or.inr ⟨rfl, hs, by simp [fillOrder, hp1, hp2, hv1, hv2, hbal, hs]⟩)
    case neg =>
      exact Or.inr (Or.inl ⟨rfl, hs,
        by simp [fillOrder, hp1, hp2, hv1, hv2, hbal, hs, RefundInvoice.markAsPaid]⟩)

/-! ## Claim theorems -/

/-- C1: a `placeOrder` call reaches `order.place()` (emits the
`order:placed` event and sets the status to PLACED) only if the engine
reported both the fee and the deposit invoice paid and both refund values
integer-equal to their invoice values; and whenever any of those conditions
fails, the call returns an error and the order's status is unchanged. -/
theorem placeOrder_placed_gated_on_payment (st : PlaceState) (e : Engine) (f d : String) :
    ((placeOrder st e f d).placedEvents ≠ [] →
      placePaymentCondsB st e f d = true ∧
      (placeOrder st e f d).state.order.status = OrderStatus.PLACED) ∧
    (placePaymentCondsB st e f d = false →
      (∃ er, (placeOrder st e f d).result = .error er) ∧
      (placeOrder st e f d).state.order.status = st.order.status) := by
  obtain ⟨o, fi, di, fr, dr⟩ := st
  cases fi with
  | none =>
    exact ⟨fun h => absurd rfl h, fun _ => ⟨⟨.NOT_PLACED, rfl⟩, rfl⟩⟩
  | some fi =>
    cases di with
    | none =>
      exact ⟨fun h => absurd rfl h, fun _ => ⟨⟨.NOT_PLACED, rfl⟩, rfl⟩⟩
    | some di =>
      cases hp1 : e.isInvoicePaid fi.paymentRequest with
      | false =>
        refine ⟨fun h => absurd ?_ h, fun _ => ⟨⟨.FEE_NOT_PAID, ?_⟩, ?_⟩⟩ <;>
          simp [placeOrder, placeAbort, hp1]
      | true =>
      cases hp2 : e.isInvoicePaid di.paymentRequest with
      | false =>
        refine ⟨fun h => absurd ?_ h, fun _ => ⟨⟨.DEPOSIT_NOT_PAID, ?_⟩, ?_⟩⟩ <;>
          simp [placeOrder, placeAbort, hp1, hp2]
      | true =>
      cases hb1 : e.isBalanceSufficient (o.payTo.drop 3) o.counterAmount true with
      | false =>
        refine ⟨fun h => absurd ?_ h, fun _ => ⟨⟨.INSUFFICIENT_FUNDS_OUTBOUND, ?_⟩, ?_⟩⟩ <;>
          simp [placeOrder, placeAbort, hp1, hp2, hb1]
      | true =>
      cases hb2 : e.isBalanceSufficient (o.payTo.drop 3) o.baseAmount false with
      | false =>
        refine ⟨fun h => absurd ?_ h, fun _ => ⟨⟨.INSUFFICIENT_FUNDS_INBOUND, ?_⟩, ?_⟩⟩ <;>
          simp [placeOrder, placeAbort, hp1, hp2, hb1, hb2]
      | true =>
      by_cases hv1 : e.getInvoiceValue fi.paymentRequest = e.getInvoiceValue f
      case neg =>
        refine ⟨fun h => absurd ?_ h, fun _ => ⟨⟨.FEE_VALUES_UNEQUAL, ?_⟩, ?_⟩⟩ <;>
          simp [placeOrder, placeAbort, hp1, hp2, hb1, hb2, hv1]
      case pos =>
      by_cases hv2 : e.getInvoiceValue di.paymentRequest = e.getInvoiceValue d
      case neg =>
        refine ⟨fun h => absurd ?_ h, fun _ => ⟨⟨.DEPOSIT_VALUES_UNEQUAL, ?_⟩, ?_⟩⟩ <;>
          simp [placeOrder, placeAbort, hp1, hp2, hb1, hb2, hv1, hv2]
      case pos =>
      have hconds : placePaymentCondsB ⟨o, some fi, some di, fr, dr⟩ e f d = true := by
        simp [placePaymentCondsB, hp1, hp2, hv1, hv2]
      by_cases hc : o.status = OrderStatus.CANCELLED
      case pos =>
        constructor
        · intro h
          exfalso
          apply h
          have hred :
              placeOrder ⟨o, some fi, some di, fr, dr⟩ e f d =
                placeCancelledRefund
                  { order := o, feeInvoice := some fi, depositInvoice := some di,
                    feeRefundInvoices := fr ++ [⟨o.mongoId, f, none⟩],
                    depositRefundInvoices := dr ++ [⟨o.mongoId, d, none⟩] } e o := by
            simp [placeOrder, hp1, hp2, hb1, hb2, hv1, hv2, hc]
          rw [hred, placeCancelledRefund_placedEvents]
        · intro hfalse
          rw [hconds] at hfalse
          exact absurd hfalse (by simp)
      case neg =>
        constructor
        · intro _
          refine ⟨hconds, ?_⟩
          simp [placeOrder, hp1, hp2, hb1, hb2, hv1, hv2, hc, Order.place]
        · intro hfalse
          rw [hconds] at hfalse
          exact absurd hfalse (by simp)

/-- Witness for C1 at concrete inputs: with every engine check passing the
order is placed; with unpaid invoices the call errors and the status is
unchanged. -/
theorem placeOrder_placed_gated_on_payment_witness :
    (placePaymentCondsB samplePlaceState allOkEngine "frr" "drr" = true ∧
      (placeOrder samplePlaceState allOkEngine "frr" "drr").state.order.status =
        OrderStatus.PLACED) ∧
    ((∃ er, (placeOrder samplePlaceState unpaidEngine "frr" "drr").result = .error er) ∧
      (placeOrder samplePlaceState unpaidEngine "frr" "drr").state.order.status =
        samplePlaceState.order.status) :=
  ⟨(placeOrder_placed_gated_on_payment samplePlaceState allOkEngine "frr" "drr").1
      (by decide),
   (placeOrder_placed_gated_on_payment samplePlaceState unpaidEngine "frr" "drr").2
      (by decide)⟩

/-- C2: two FillOrder calls racing on the same PLACED order, each loading
the order before either commits (schedule load₁, load₂, commit₁, commit₂),
BOTH succeed: the `order.status !== PLACED` test consults the snapshot
loaded before the engine round trips, so neither call observes the other's
claim, no call receives ORDER_NOT_PLACED, and no loser refund is paid —
there is no atomic compare-and-set. -/
theorem fillOrder_race_two_winners :
    runRace [true, false, true, false] raceStart =
      { orderStatus := OrderStatus.FILLED, taker1 := .succeeded,
        taker2 := .succeeded } := by
  decide

/-- C3: a `fillOrder` call that passes every invoice and balance
precondition but finds the order's status not PLACED pays both of the
fill's refund requests, records a preimage on each persisted refund
invoice, fails with ORDER_NOT_PLACED, and leaves the fill unaccepted and
the order unchanged. -/
theorem fillOrder_not_placed_refunds (st : FillState) (e : Engine) (f d : String)
    (fl : Fill) (o : Order) (fi di : Invoice)
    (hfl : st.fill = some fl) (ho : st.order = some o)
    (hfi : st.feeInvoice = some fi) (hdi : st.depositInvoice = some di)
    (hp1 : e.isInvoicePaid fi.paymentRequest = true)
    (hp2 : e.isInvoicePaid di.paymentRequest = true)
    (hv1 : e.getInvoiceValue fi.paymentRequest = e.getInvoiceValue f)
    (hv2 : e.getInvoiceValue di.paymentRequest = e.getInvoiceValue d)
    (hbal : checkChannelBalances o fl e = .ok ())
    (hstatus : o.status ≠ OrderStatus.PLACED) :
    (fillOrder st e f d).result = .error .ORDER_NOT_PLACED ∧
    (fillOrder st e f d).payments = [f, d] ∧
    (fillOrder st e f d).feeRefundInvoices =
      st.feeRefundInvoices ++ [⟨fl.mongoId, f, some (e.payInvoice f)⟩] ∧
    (fillOrder st e f d).depositRefundInvoices =
      st.depositRefundInvoices ++ [⟨fl.mongoId, d, some (e.payInvoice d)⟩] ∧
    (fillOrder st e f d).fill = some fl ∧
    (fillOrder st e f d).order = some o := by
  obtain ⟨flo, oo, fio, dio, frs, drs⟩ := st
  subst hfl; subst ho; subst hfi; subst hdi
  refine ⟨?_, ?_, ?_, ?_, ?_, ?_⟩ <;>
    simp [fillOrder, hp1, hp2, hv1, hv2, hbal, hstatus, RefundInvoice.markAsPaid]

/-- Witness for C3 at a concrete state: the order was cancelled in the
interim; the taker's refunds are paid and the fill stays unaccepted. -/
theorem fillOrder_not_placed_refunds_witness :
    (fillOrder cancelledFillState allOkEngine "frf" "frd").result =
      .error .ORDER_NOT_PLACED ∧
    (fillOrder cancelledFillState allOkEngine "frf" "frd").payments = ["frf", "frd"] ∧
    (fillOrder cancelledFillState allOkEngine "frf" "frd").feeRefundInvoices =
      cancelledFillState.feeRefundInvoices ++
        [⟨sampleFill.mongoId, "frf", some (allOkEngine.payInvoice "frf")⟩] ∧
    (fillOrder cancelledFillState allOkEngine "frf" "frd").depositRefundInvoices =
      cancelledFillState.depositRefundInvoices ++
        [⟨sampleFill.mongoId, "frd", some (allOkEngine.payInvoice "frd")⟩] ∧
    (fillOrder cancelledFillState allOkEngine "frf" "frd").fill = some sampleFill ∧
    (fillOrder cancelledFillState allOkEngine "frf" "frd").order =
      some { sampleOrder with status := OrderStatus.CANCELLED } :=
  fillOrder_not_placed_refunds cancelledFillState allOkEngine "frf" "frd"
    sampleFill { sampleOrder with status := OrderStatus.CANCELLED }
    ⟨"ffeeReq"⟩ ⟨"fdepReq"⟩ rfl rfl rfl rfl (by decide) (by decide) (by decide)
    (by decide) rfl (by decide)

/-- Counterexample for C4: a repeat `placeOrder` call on a CANCELLED order
whose fee refund was already paid by an earlier call passes every
precondition, yet pays only the deposit refund (not both) and leaves the
newly persisted fee refund invoice without a preimage, refuting the claim
that every such call pays out both refunds and records a preimage on each
refund invoice. -/
theorem placeOrder_cancelled_repeat_counterexample :
    ¬ ((placeOrder repeatCancelledPlaceState allOkEngine "newF" "newD").payments =
        ["newF", "newD"] ∧
      (∀ inv ∈ (placeOrder repeatCancelledPlaceState allOkEngine
          "newF" "newD").state.feeRefundInvoices, inv.preimage ≠ none) ∧
      (placeOrder repeatCancelledPlaceState allOkEngine "newF" "newD").state.order.status =
        OrderStatus.CANCELLED) := by
  decide

/-- C4 (amended): every `placeOrder` call on a CANCELLED order whose
preconditions pass persists the two refund invoices, then pays out each
found refund invoice that does not already carry a payment preimage (fee
first, then deposit), recording the preimage on the found store record,
and skips any found invoice already carrying one; in all cases the call
returns `{}` with the order's status still CANCELLED and no PLACED event.
On a first placement (no refund invoice record yet for the order) this
means both refunds are paid and both persisted invoices carry their
preimages. -/
theorem placeOrder_cancelled_refund_behavior (st : PlaceState) (e : Engine) (f d : String)
    (fi di : Invoice)
    (hfi : st.feeInvoice = some fi) (hdi : st.depositInvoice = some di)
    (hp1 : e.isInvoicePaid fi.paymentRequest = true)
    (hp2 : e.isInvoicePaid di.paymentRequest = true)
    (hb1 : e.isBalanceSufficient (st.order.payTo.drop 3) st.order.counterAmount true = true)
    (hb2 : e.isBalanceSufficient (st.order.payTo.drop 3) st.order.baseAmount false = true)
    (hv1 : e.getInvoiceValue fi.paymentRequest = e.getInvoiceValue f)
    (hv2 : e.getInvoiceValue di.paymentRequest = e.getInvoiceValue d)
    (hc : st.order.status = OrderStatus.CANCELLED) :
    (placeOrder st e f d).result = .ok () ∧
    (placeOrder st e f d).state.order.status = OrderStatus.CANCELLED ∧
    (placeOrder st e f d).placedEvents = [] ∧
    (∃ feeFound depFound : RefundInvoice,
      findOne (st.feeRefundInvoices ++ [⟨st.order.mongoId, f, none⟩])
        st.order.mongoId = some feeFound ∧
      findOne (st.depositRefundInvoices ++ [⟨st.order.mongoId, d, none⟩])
        st.order.mongoId = some depFound ∧
      (placeOrder st e f d).payments =
        (if feeFound.preimage = none then [feeFound.paymentRequest] else []) ++
        (if depFound.preimage = none then [depFound.paymentRequest] else []) ∧
      (placeOrder st e f d).state.feeRefundInvoices =
        (if feeFound.preimage = none then
          setPreimageOnFirst (st.feeRefundInvoices ++ [⟨st.order.mongoId, f, none⟩])
            st.order.mongoId (e.payInvoice feeFound.paymentRequest)
        else st.feeRefundInvoices ++ [⟨st.order.mongoId, f, none⟩]) ∧
      (placeOrder st e f d).state.depositRefundInvoices =
        (if depFound.preimage = none then
          setPreimageOnFirst (st.depositRefundInvoices ++ [⟨st.order.mongoId, d, none⟩])
            st.order.mongoId (e.payInvoice depFound.paymentRequest)
        else st.depositRefundInvoices ++ [⟨st.order.mongoId, d, none⟩])) ∧
    ((∀ i ∈ st.feeRefundInvoices, i.foreignId ≠ st.order.mongoId) →
      (∀ i ∈ st.depositRefundInvoices, i.foreignId ≠ st.order.mongoId) →
      (placeOrder st e f d).payments = [f, d] ∧
      (placeOrder st e f d).state.feeRefundInvoices =
        st.feeRefundInvoices ++ [⟨st.order.mongoId, f, some (e.payInvoice f)⟩] ∧
      (placeOrder st e f d).state.depositRefundInvoices =
        st.depositRefundInvoices ++ [⟨st.order.mongoId, d, some (e.payInvoice d)⟩]) := by
  obtain ⟨o, fio, dio, fr, dr⟩ := st
  subst hfi; subst hdi
  simp only at hb1 hb2 hc ⊢
  have hred :
      placeOrder ⟨o, some fi, some di, fr, dr⟩ e f d =
        placeCancelledRefund
          { order := o, feeInvoice := some fi, depositInvoice := some di,
            feeRefundInvoices := fr ++ [⟨o.mongoId, f, none⟩],
            depositRefundInvoices := dr ++ [⟨o.mongoId, d, none⟩] } e o := by
    simp [placeOrder, hp1, hp2, hb1, hb2, hv1, hv2, hc]
  obtain ⟨feeFound, hfee⟩ :=
    Option.isSome_iff_exists.mp (findOne_append_self_isSome fr f none o.mongoId)
  obtain ⟨depFound, hdep⟩ :=
    Option.isSome_iff_exists.mp (findOne_append_self_isSome dr d none o.mongoId)
  have hgen := placeCancelledRefund_found
    { order := o, feeInvoice := some fi, depositInvoice := some di,
      feeRefundInvoices := fr ++ [⟨o.mongoId, f, none⟩],
      depositRefundInvoices := dr ++ [⟨o.mongoId, d, none⟩] } e o feeFound depFound hfee hdep
  rw [hred]
  refine ⟨hgen.1, ?_, placeCancelledRefund_placedEvents _ _ _,
    ⟨feeFound, depFound, hfee, hdep, hgen.2.1, hgen.2.2.1, hgen.2.2.2⟩, ?_⟩
  · rw [placeCancelledRefund_order]
    exact hc
  · intro hfresh1 hfresh2
    have hfee2 : findOne (fr ++ [⟨o.mongoId, f, none⟩]) o.mongoId =
        some ⟨o.mongoId, f, none⟩ :=
      findOne_append_fresh fr _ _ hfresh1 rfl
    have hdep2 : findOne (dr ++ [⟨o.mongoId, d, none⟩]) o.mongoId =
        some ⟨o.mongoId, d, none⟩ :=
      findOne_append_fresh dr _ _ hfresh2 rfl
    have hspec := placeCancelledRefund_fresh
      { order := o, feeInvoice := some fi, depositInvoice := some di,
        feeRefundInvoices := fr ++ [⟨o.mongoId, f, none⟩],
        depositRefundInvoices := dr ++ [⟨o.mongoId, d, none⟩] } e o f d hfee2 hdep2
    refine ⟨hspec.2.1, ?_, ?_⟩
    · rw [hspec.2.2.1]
      exact setPreimageOnFirst_append_fresh fr o.mongoId f (e.payInvoice f) hfresh1
    · rw [hspec.2.2.2]
      exact setPreimageOnFirst_append_fresh dr o.mongoId d (e.payInvoice d) hfresh2

/-- Witness for C4's amended claim: a first placement on a cancelled order
pays both refunds and records both preimages, and a repeat placement (fee
refund already paid) still returns `{}` with status CANCELLED and no
PLACED event — both obtained from the claim theorem at concrete inputs. -/
theorem placeOrder_cancelled_refund_behavior_witness :
    ((placeOrder cancelledPlaceState allOkEngine "newF" "newD").result = .ok () ∧
      (placeOrder cancelledPlaceState allOkEngine "newF" "newD").payments =
        ["newF", "newD"] ∧
      (placeOrder cancelledPlaceState allOkEngine "newF" "newD").state.feeRefundInvoices =
        cancelledPlaceState.feeRefundInvoices ++
          [⟨cancelledPlaceState.order.mongoId, "newF",
            some (allOkEngine.payInvoice "newF")⟩] ∧
      (placeOrder cancelledPlaceState allOkEngine "newF" "newD").state.depositRefundInvoices =
        cancelledPlaceState.depositRefundInvoices ++
          [⟨cancelledPlaceState.order.mongoId, "newD",
            some (allOkEngine.payInvoice "newD")⟩] ∧
      (placeOrder cancelledPlaceState allOkEngine "newF" "newD").state.order.status =
        OrderStatus.CANCELLED ∧
      (placeOrder cancelledPlaceState allOkEngine "newF" "newD").placedEvents = []) ∧
    ((placeOrder repeatCancelledPlaceState allOkEngine "newF" "newD").result = .ok () ∧
      (placeOrder repeatCancelledPlaceState allOkEngine "newF" "newD").state.order.status =
        OrderStatus.CANCELLED ∧
      (placeOrder repeatCancelledPlaceState allOkEngine "newF" "newD").placedEvents = []) := by
  have h1 := placeOrder_cancelled_refund_behavior cancelledPlaceState allOkEngine
    "newF" "newD" ⟨"feeReq"⟩ ⟨"depReq"⟩ rfl rfl (by decide) (by decide) (by decide)
    (by decide) (by decide) (by decide) (by decide)
  have hf := h1.2.2.2.2 (by decide) (by decide)
  have h2 := placeOrder_cancelled_refund_behavior repeatCancelledPlaceState allOkEngine
    "newF" "newD" ⟨"feeReq"⟩ ⟨"depReq"⟩ rfl rfl (by decide) (by decide) (by decide)
    (by decide) (by decide) (by decide) (by decide)
  exact ⟨⟨h1.1, hf.1, hf.2.1, hf.2.2, h1.2.1, h1.2.2.1⟩, ⟨h2.1, h2.2.1, h2.2.2.1⟩⟩

/-- Counterexample for C5: a `fillOrder` call that fails the
channel-balance precondition (a precondition failure in the claim's list)
has already persisted the fill's refund invoice records when the error is
returned, refuting "no refund invoice records are persisted before the
error is returned". -/
theorem fillOrder_balance_failure_persists_counterexample :
    (fillOrder placedFillState outboundShortEngine "frf" "frd").result =
      .error .INSUFFICIENT_FUNDS_OUTBOUND ∧
    (fillOrder placedFillState outboundShortEngine "frf" "frd").feeRefundInvoices ≠
      placedFillState.feeRefundInvoices ∧
    (fillOrder placedFillState outboundShortEngine "frf" "frd").depositRefundInvoices ≠
      placedFillState.depositRefundInvoices := by
  decide

/-- C5 (amended): every precondition failure leaves the order and fill
statuses unchanged; `placeOrder` persists nothing and pays nothing on any
error, and `fillOrder` persists nothing on its existence, paid and
refund-value failures — but a `fillOrder` channel-balance failure is raised
only after the fill's two refund invoices were persisted (unpaid). -/
theorem precondition_failure_frame (pst : PlaceState) (fst : FillState) (e : Engine)
    (f d : String) :
    (∀ er, (placeOrder pst e f d).result = .error er →
      (placeOrder pst e f d).state = pst ∧ (placeOrder pst e f d).payments = []) ∧
    (∀ er, (fillOrder fst e f d).result = .error er →
      (fillOrder fst e f d).fill = fst.fill ∧ (fillOrder fst e f d).order = fst.order) ∧
    (∀ er, (fillOrder fst e f d).result = .error er →
      er ≠ .INSUFFICIENT_FUNDS_OUTBOUND → er ≠ .INSUFFICIENT_FUNDS_INBOUND →
      er ≠ .ORDER_NOT_PLACED →
      (fillOrder fst e f d).feeRefundInvoices = fst.feeRefundInvoices ∧
      (fillOrder fst e f d).depositRefundInvoices = fst.depositRefundInvoices ∧
      (fillOrder fst e f d).payments = []) ∧
    (∀ fl o er, fst.fill = some fl → fst.order = some o →
      fillPaymentCondsB fst e f d = true →
      checkChannelBalances o fl e = .error er →
      (fillOrder fst e f d).result = .error er ∧
      (fillOrder fst e f d).feeRefundInvoices =
        fst.feeRefundInvoices ++ [⟨fl.mongoId, f, none⟩] ∧
      (fillOrder fst e f d).depositRefundInvoices =
        fst.depositRefundInvoices ++ [⟨fl.mongoId, d, none⟩] ∧
      (fillOrder fst e f d).payments = []) := by
  refine ⟨fun er h => placeOrder_error_frame pst e f d er h, ?_, ?_, ?_⟩
  · intro er h
    rcases fillOrder_cases fst e f d with ⟨-, er', heq⟩ | ⟨fl, o, hfl, ho, -, hsub⟩
    · rw [heq]; exact ⟨rfl, rfl⟩
    · rcases hsub with ⟨er', -, heq⟩ | ⟨-, -, heq⟩ | ⟨-, -, heq⟩ <;> rw [heq]
      · exact ⟨hfl.symm, ho.symm⟩
      · exact ⟨hfl.symm, ho.symm⟩
      · rw [heq] at h; exact Except.noConfusion h
  · intro er h hne1 hne2 hne3
    rcases fillOrder_cases fst e f d with ⟨-, er', heq⟩ | ⟨fl, o, hfl, ho, -, hsub⟩
    · rw [heq]; exact ⟨rfl, rfl, rfl⟩
    · rcases hsub with ⟨er', hbal, heq⟩ | ⟨-, -, heq⟩ | ⟨-, -, heq⟩
      · rw [heq] at h
        have her : er' = er := by
          have := h
          simp only [Except.error.injEq] at this
          exact this
        rcases checkChannelBalances_error_cases o fl e er' hbal with h1 | h1 <;>
          rw [her] at h1
        · exact absurd h1 hne1
        · exact absurd h1 hne2
      · rw [heq] at h
        have : FillErr.ORDER_NOT_PLACED = er := by
          simpa only [Except.error.injEq] using h
        exact absurd this.symm hne3
      · rw [heq] at h; exact Except.noConfusion h
  · intro fl o er hfl ho hconds hbal
    rcases fillOrder_cases fst e f d with ⟨hcf, -, -⟩ | ⟨fl', o', hfl', ho', -, hsub⟩
    · rw [hconds] at hcf; exact Bool.noConfusion hcf
    · have hfl2 : fl' = fl := by
        rw [hfl] at hfl'; exact (Option.some.injEq _ _ ▸ hfl').symm
      have ho2 : o' = o := by
        rw [ho] at ho'; exact (Option.some.injEq _ _ ▸ ho').symm
      subst hfl2; subst ho2
      rcases hsub with ⟨er', hbal', heq⟩ | ⟨hbal', -, -⟩ | ⟨hbal', -, -⟩
      · have her : er = er' := by
          rw [hbal] at hbal'
          simpa only [Except.error.injEq] using hbal'
        subst her
        rw [heq]
        exact ⟨rfl, rfl, rfl, rfl⟩
      · rw [hbal] at hbal'; exact Except.noConfusion hbal'
      · rw [hbal] at hbal'; exact Except.noConfusion hbal'

/-- Witness for C5's amended claim at concrete inputs: an unpaid-fee
failure leaves both calls' records untouched. -/
theorem precondition_failure_frame_witness :
    ((placeOrder samplePlaceState unpaidEngine "frr" "drr").state = samplePlaceState ∧
      (placeOrder samplePlaceState unpaidEngine "frr" "drr").payments = []) ∧
    ((fillOrder placedFillState unpaidEngine "frf" "frd").feeRefundInvoices =
        placedFillState.feeRefundInvoices ∧
      (fillOrder placedFillState unpaidEngine "frf" "frd").depositRefundInvoices =
        placedFillState.depositRefundInvoices ∧
      (fillOrder placedFillState unpaidEngine "frf" "frd").payments = []) :=
  ⟨(precondition_failure_frame samplePlaceState placedFillState unpaidEngine
      "frr" "drr").1 .FEE_NOT_PAID (by decide),
   (precondition_failure_frame samplePlaceState placedFillState unpaidEngine
      "frf" "frd").2.2.1 .feeNotPaid (by decide) (by decide) (by decide) (by decide)⟩

/-- Counterexample for C6: in a state where both the fee refund-value
precondition and the channel-balance precondition fail, `fillOrder`
reports the fee-value error, not the balance error that the claim's stated
check order (existence, paid, balance, value) would produce. -/
theorem fillOrder_check_order_counterexample :
    (fillOrder placedFillState bothShortEngine "frf" "frd").result =
      .error .FEE_VALUES_UNEQUAL ∧
    (fillOrder placedFillState bothShortEngine "frf" "frd").result ≠
      .error .INSUFFICIENT_FUNDS_OUTBOUND ∧
    (fillOrder placedFillState bothShortEngine "frf" "frd").result ≠
      .error .INSUFFICIENT_FUNDS_INBOUND := by
  decide

/-- C6 (amended): `fillOrder` enforces the same four precondition families
as `placeOrder` on the fill's own invoices, but in the order existence,
paid, refund-value equality, then the four-way channel-balance check
(maker outbound/inbound, taker outbound/inbound, against the order's
amounts), each failure aborting with its caller-facing reason. -/
theorem fillOrder_precondition_order (st : FillState) (e : Engine) (f d : String) :
    ((fillOrder st e f d).result = .ok () →
      fillPaymentCondsB st e f d = true ∧
      ∃ fl o, st.fill = some fl ∧ st.order = some o ∧
        checkChannelBalances o fl e = .ok ()) ∧
    (∀ fl o fi di, st.fill = some fl → st.order = some o →
      st.feeInvoice = some fi → st.depositInvoice = some di →
      e.isInvoicePaid fi.paymentRequest = true →
      e.isInvoicePaid di.paymentRequest = true →
      e.getInvoiceValue fi.paymentRequest ≠ e.getInvoiceValue f →
      (fillOrder st e f d).result = .error .FEE_VALUES_UNEQUAL) ∧
    (∀ fl o er, st.fill = some fl → st.order = some o →
      fillPaymentCondsB st e f d = true →
      checkChannelBalances o fl e = .error er →
      (fillOrder st e f d).result = .error er) ∧
    (∀ fl o, checkChannelBalances o fl e = .ok () ↔
      e.isBalanceSufficient (o.payTo.drop 3) o.counterAmount true = true ∧
      e.isBalanceSufficient (o.payTo.drop 3) o.baseAmount false = true ∧
      e.isBalanceSufficient (fl.takerPayTo.drop 3) o.counterAmount true = true ∧
      e.isBalanceSufficient (fl.takerPayTo.drop 3) o.baseAmount false = true) := by
  refine ⟨?_, ?_, ?_, fun fl o => checkChannelBalances_ok_iff o fl e⟩
  · intro h
    rcases fillOrder_cases st e f d with ⟨-, er, heq⟩ | ⟨fl, o, hfl, ho, hconds, hsub⟩
    · rw [heq] at h; exact Except.noConfusion h
    · rcases hsub with ⟨er, -, heq⟩ | ⟨-, -, heq⟩ | ⟨hbal, -, -⟩
      · rw [heq] at h; exact Except.noConfusion h
      · rw [heq] at h; exact Except.noConfusion h
      · exact ⟨hconds, fl, o, hfl, ho, hbal⟩
  · intro fl o fi di hfl ho hfi hdi hp1 hp2 hv1
    obtain ⟨flo, oo, fio, dio, frs, drs⟩ := st
    subst hfl; subst ho; subst hfi; subst hdi
    simp [fillOrder, fillAbort, hp1, hp2, hv1]
  · intro fl o er hfl ho hconds hbal
    rcases fillOrder_cases st e f d with ⟨hcf, -, -⟩ | ⟨fl', o', hfl', ho', -, hsub⟩
    · rw [hconds] at hcf; exact Bool.noConfusion hcf
    · have hfl2 : fl' = fl := by
        rw [hfl] at hfl'; exact (Option.some.injEq _ _ ▸ hfl').symm
      have ho2 : o' = o := by
        rw [ho] at ho'; exact (Option.some.injEq _ _ ▸ ho').symm
      subst hfl2; subst ho2
      rcases hsub with ⟨er', hbal', heq⟩ | ⟨hbal', -, -⟩ | ⟨hbal', -, -⟩
      · have her : er = er' := by
          rw [hbal] at hbal'
          simpa only [Except.error.injEq] using hbal'
        subst her
        rw [heq]
      · rw [hbal] at hbal'; exact Except.noConfusion hbal'
      · rw [hbal] at hbal'; exact Except.noConfusion hbal'

/-- Witness for C6's amended claim at concrete inputs: with both a value
mismatch and insufficient balances, the value error is reported; with all
checks passing (maker and taker), the four-way balance check succeeds. -/
theorem fillOrder_precondition_order_witness :
    (fillOrder placedFillState bothShortEngine "frf" "frd").result =
      .error .FEE_VALUES_UNEQUAL ∧
    checkChannelBalances sampleOrder sampleFill allOkEngine = .ok () :=
  ⟨(fillOrder_precondition_order placedFillState bothShortEngine "frf" "frd").2.1
      sampleFill { sampleOrder with status := OrderStatus.PLACED }
      ⟨"ffeeReq"⟩ ⟨"fdepReq"⟩ rfl rfl rfl rfl (by decide) (by decide) (by decide),
   (fillOrder_precondition_order placedFillState allOkEngine "frf" "frd").2.2.2
      sampleFill sampleOrder |>.mpr (by decide)⟩

/-- Counterexample for C7: after `deliver("order-42", "fill-7")` (an
`enqueue` on the empty per-key queue), the first `awaitOnce` (`next`)
observes "fill-7" but the second sequential `awaitOnce` does not — `next`
dequeues (consumes) the value, so it is not retrievable again, refuting
"two sequential awaitOnce calls on the same key both observe that same
value". -/
theorem messageQueue_second_await_counterexample :
    ¬ ((((emptyQueue.enqueue "fill-7").1.next).1 = some "fill-7") ∧
      (((((emptyQueue.enqueue "fill-7").1.next).2).next).1 = some "fill-7")) := by
  decide

/-- C7 (amended): a value delivered under a key with no pending waiter is
observed by the first `awaitOnce` and consumed by it; a second sequential
`awaitOnce` on the same key does not observe it and suspends waiting for a
new delivery. -/
theorem messageQueue_deliver_consumed_once (q : MessageQueue String) (v : String)
    (hq : q.queue = []) (hl : q.listeners = 0) :
    (((q.enqueue v).1.next).1 = some v) ∧
    ((((q.enqueue v).1.next).2.next).1 = none) ∧
    ((((q.enqueue v).1.next).2.next).2.listeners = 1) := by
  obtain ⟨qu, li⟩ := q
  simp only at hq hl
  subst hq; subst hl
  simp [MessageQueue.enqueue, MessageQueue.next]

/-- Witness for C7's amended claim on the empty queue. -/
theorem messageQueue_deliver_consumed_once_witness :
    ((((emptyQueue.enqueue "fill-7").1.next).1 = some "fill-7") ∧
      ((((emptyQueue.enqueue "fill-7").1.next).2.next).1 = none) ∧
      ((((emptyQueue.enqueue "fill-7").1.next).2.next).2.listeners = 1)) :=
  messageQueue_deliver_consumed_once emptyQueue "fill-7" rfl rfl

/-- C8: a `placeOrder` call that cannot find the order's fee invoice logs
an internal error and fails with the generic "could not place, retry"
message, but the order is NOT cancelled — its status is left untouched
(here still CREATED), contradicting both the spec and the source's own
comment that the order must be cancelled. -/
theorem placeOrder_missing_invoice_leaves_status :
    (placeOrder missingInvoicePlaceState allOkEngine "frr" "drr").result =
      .error .NOT_PLACED ∧
    (placeOrder missingInvoicePlaceState allOkEngine "frr" "drr").errorLogs =
      ["Fee invoice could not be found for order"] ∧
    (placeOrder missingInvoicePlaceState allOkEngine "frr" "drr").state.order.status =
      OrderStatus.CREATED := by
  decide

/-- C9: a successful `placeOrder` call on a created order sends exactly one
response message, and that message is an `EmptyResponse` carrying neither
an order status nor a fill — not a stream that first emits PLACED and later
a second message with the fill, as the proto's
`stream PlaceOrderResponse` declaration and the spec describe. -/
theorem placeOrder_single_empty_response :
    (placeOrder samplePlaceState allOkEngine "frr" "drr").result = .ok () ∧
    (placeOrder samplePlaceState allOkEngine "frr" "drr").responses =
      [{ orderStatus := none, fillId := none }] := by
  decide

/-- C10: the four channel-balance checks of `checkChannelBalances` pass
exactly when the engine reports sufficiency for the order's counter amount
outbound and the order's base amount inbound, identically at the maker's
and the taker's address — and the fill's fill amount plays no role. -/
theorem checkChannelBalances_order_amounts (o : Order) (fl : Fill) (e : Engine) :
    (checkChannelBalances o fl e = .ok () ↔
      e.isBalanceSufficient (o.payTo.drop 3) o.counterAmount true = true ∧
      e.isBalanceSufficient (o.payTo.drop 3) o.baseAmount false = true ∧
      e.isBalanceSufficient (fl.takerPayTo.drop 3) o.counterAmount true = true ∧
      e.isBalanceSufficient (fl.takerPayTo.drop 3) o.baseAmount false = true) ∧
    (∀ a : Int, checkChannelBalances o { fl with fillAmount := a } e =
      checkChannelBalances o fl e) :=
  ⟨checkChannelBalances_ok_iff o fl e, fun _ => by cases fl; rfl⟩

/-- Witness for C10 at concrete inputs: with sufficient balances the
four-way check passes, and changing the fill amount changes nothing. -/
theorem checkChannelBalances_order_amounts_witness :
    checkChannelBalances sampleOrder sampleFill allOkEngine = .ok () ∧
    checkChannelBalances sampleOrder { sampleFill with fillAmount := 7 } allOkEngine =
      checkChannelBalances sampleOrder sampleFill allOkEngine :=
  ⟨(checkChannelBalances_order_amounts sampleOrder sampleFill allOkEngine).1.mpr
      (by decide),
   (checkChannelBalances_order_amounts sampleOrder sampleFill allOkEngine).2 7⟩

end Relayer
